import Mathlib

/-!
Verification of the aggroNATION content ingestion, deduplication and ranking
core against its natural-language specification.  The definitions below are a
shallow embedding of the TypeScript source: numeric code is embedded over `ℚ`
(or `ℝ` where the source calls transcendental functions such as `Math.log10`),
Mongoose documents become Lean structures, and the per-item ingestion loop
becomes a fold over the list of feed items with the stored collection passed
explicitly.
-/

namespace AggroNation

/-! ## Hub adapter scoring (`transformHuggingFaceModel`, HuggingFace utility)

The source computes
  `downloadScore = Math.min((hfModel.downloads / 10000000) * 70, 70)`
  `likeScore     = Math.min((hfModel.likes / 1000) * 20, 20)`
  `trendingBonus = hfModel.trending ? 10 : 0`
  `huggingFaceScore = downloadScore + likeScore + trendingBonus`.
-/

/-- Download component of the hub score: linear in `downloads` against the
10,000,000 reference ceiling, capped at 70. -/
def hfDownloadScore (downloads : ℚ) : ℚ :=
  min (downloads / 10000000 * 70) 70

/-- Like component of the hub score: linear in `likes` against the 1,000
reference ceiling, capped at 20. -/
def hfLikeScore (likes : ℚ) : ℚ :=
  min (likes / 1000 * 20) 20

/-- The external score computed by `transformHuggingFaceModel`. -/
def huggingFaceScore (downloads likes : ℚ) (trending : Bool) : ℚ :=
  hfDownloadScore downloads + hfLikeScore likes + (if trending then 10 else 0)

/-- Modelled from the spec: the documented logarithmic reference formula for a
hub item, `min(log10(downloads+1)/log10(1e7+1)*70, 70) + min(likes/1000*20, 20)
+ (trending ? 10 : 0)`.  This is the formula the specification asserts the hub
adapter computes; it is stated here only to be compared with the code
definition `huggingFaceScore` above. -/
noncomputable def specHubExternalScore (downloads likes : ℝ) (trending : Bool) : ℝ :=
  min (Real.logb 10 (downloads + 1) / Real.logb 10 (10000000 + 1) * 70) 70
    + min (likes / 1000 * 20) 20 + (if trending then 10 else 0)

/-! ## Final score blending

The AIModel pre-save middleware computes
  `userScore  = userVotes > 0 ? (userRating/5)*80 + min((userVotes/100)*20, 20) : 0`
  `finalScore = huggingFaceScore * 0.85 + userScore * 0.15`.

`GitHubRepositorySchema.methods.calculateFinalScore` computes
  `Math.round(githubScore * 0.85 + userScore * 0.15)`
where `githubScore = calculateTrendingScore()` is itself
`Math.min(Math.round(weighted sum), 100)`.
-/

/-- The exact hybrid blend used by the AIModel pre-save hook. -/
def hybridFinalScore (externalScore localScore : ℚ) : ℚ :=
  externalScore * 0.85 + localScore * 0.15

/-- User score computed by the AIModel pre-save hook from vote count and
average rating. -/
def aiModelUserScore (userVotes : ℕ) (userRating : ℚ) : ℚ :=
  if 0 < userVotes then (userRating / 5) * 80 + min (((userVotes : ℚ) / 100) * 20) 20
  else 0

/-- Mutable fields of an AIModel document that take part in score
computation. -/
structure AIModelState where
  huggingFaceScore : ℚ
  userVotes : ℕ
  userRating : ℚ
  userScore : ℚ
  finalScore : ℚ
deriving DecidableEq, Repr

/-- The AIModel pre-save middleware: recompute `userScore` from the vote
fields, then `finalScore` as the 85/15 blend. -/
def aiModelPreSave (m : AIModelState) : AIModelState :=
  let us := aiModelUserScore m.userVotes m.userRating
  { huggingFaceScore := m.huggingFaceScore
    userVotes := m.userVotes
    userRating := m.userRating
    userScore := us
    finalScore := hybridFinalScore m.huggingFaceScore us }

/-- The GitHub repository final score: the 85/15 blend rounded to the nearest
integer (`Math.round`, which is `⌊x + 1/2⌋`). -/
def githubFinalScore (githubScore userScore : ℚ) : ℤ :=
  ⌊githubScore * 0.85 + userScore * 0.15 + 1 / 2⌋

/-- Inputs of `calculateTrendingScore` on a GitHub repository document.
`pushedAtMs` is the epoch-millisecond push timestamp when present and
`nowMs` stands for `Date.now()`. -/
structure RepoStatsInput where
  stargazersCount : ℕ
  forksCount : ℕ
  openIssuesCount : ℕ
  pushedAtMs : Option ℚ
  nowMs : ℚ
  aiTopicMatchCount : ℕ
deriving Repr

/-- The trending score of `calculateTrendingScore`: log-normalized stars and
forks, an open-issue penalty, a recency term, and two points per AI-related
topic, blended by the fixed weights and then rounded and capped at 100.
The topics filter is abstracted by its count `aiTopicMatchCount` of topics
containing an AI keyword. -/
noncomputable def calculateTrendingScore (r : RepoStatsInput) : ℤ :=
  let normalizedStars : ℝ := min (Real.logb 10 ((r.stargazersCount : ℝ) + 1) * 10) 40
  let normalizedForks : ℝ := min (Real.logb 10 ((r.forksCount : ℝ) + 1) * 5) 20
  let issuesScore : ℝ := max (15 - (r.openIssuesCount : ℝ) / 10) 0
  let daysSinceLastPush : ℝ :=
    match r.pushedAtMs with
    | some p => ((r.nowMs : ℝ) - (p : ℝ)) / (1000 * 60 * 60 * 24)
    | none => 365
  let activityScore : ℝ := max (15 - daysSinceLastPush / 7) 0
  let topicsScore : ℝ := (r.aiTopicMatchCount : ℝ) * 2
  let score : ℝ := normalizedStars * 0.4 + normalizedForks * 0.2 + issuesScore * 0.15
    + activityScore * 0.15 + topicsScore * 0.1
  min ⌊score + 1 / 2⌋ 100

/-- The GitHub pre-save pipeline for the final score: compute the trending
score from repository statistics, then round the 85/15 blend with the stored
user score (`Math.round(githubScore * 0.85 + userScore * 0.15)`). -/
noncomputable def githubFinalScoreOfRepo (r : RepoStatsInput) (userScore : ℚ) : ℤ :=
  ⌊((calculateTrendingScore r : ℝ) * 0.85 + (userScore : ℝ) * 0.15) + 1 / 2⌋

/-! ## XAccount sync health (`markSyncSuccess` / `markSyncError`)

The source methods are
  `markSyncSuccess(): lastSyncAt = now; syncErrorCount = 0; lastSyncError = undefined`
  `markSyncError(e):  syncErrorCount += 1; lastSyncError = e;
                      if (syncErrorCount >= 5) isEnabled = false`.
-/

/-- Sync-health fields of an XAccount document. -/
structure XAccountState where
  isEnabled : Bool
  syncErrorCount : ℕ
  lastSyncError : Option String
  lastSyncAt : Option ℕ
deriving DecidableEq, Repr

/-- Mark a sync as successful: record the time, reset the consecutive error
counter and clear the last error. -/
def markSyncSuccess (a : XAccountState) (now : ℕ) : XAccountState :=
  { isEnabled := a.isEnabled
    syncErrorCount := 0
    lastSyncError := none
    lastSyncAt := some now }

/-- Mark a sync as failed: bump the consecutive error counter, store the
message, and disable the account once the counter reaches 5. -/
def markSyncError (a : XAccountState) (e : String) : XAccountState :=
  let c := a.syncErrorCount + 1
  { isEnabled := if 5 ≤ c then false else a.isEnabled
    syncErrorCount := c
    lastSyncError := some e
    lastSyncAt := a.lastSyncAt }

/-! ## Pagination metadata (`buildPagination`) -/

/-- Pagination metadata record returned by `buildPagination`. -/
structure PaginationMeta where
  currentPage : ℤ
  totalPages : ℤ
  totalCount : ℕ
  limit : ℕ
  hasNext : Bool
  hasPrev : Bool
deriving DecidableEq, Repr

/-- The `buildPagination` helper: `totalPages = max(1, ceil(totalCount/limit))`,
`currentPage = min(max(1, page), totalPages)`, and the two navigation flags. -/
def buildPagination (page : ℤ) (limit totalCount : ℕ) : PaginationMeta :=
  let totalPages : ℤ := max 1 ⌈(totalCount : ℚ) / (limit : ℚ)⌉
  let currentPage : ℤ := min (max 1 page) totalPages
  { currentPage := currentPage
    totalPages := totalPages
    totalCount := totalCount
    limit := limit
    hasNext := decide (currentPage < totalPages)
    hasPrev := decide (1 < currentPage) }

/-! ## RSS ingestion (`processFeedItems` / `processAllFeeds`)

The per-item loop of `processFeedItems` runs, for each parsed feed item:
  `Article.findOne({ $or: [ { url: item.link }, { originalUrl: item.link },
                            { title: item.title, feedId: feedDoc._id } ] })`
then either increments `skipped` (a document was found) or builds a new
`Article` from the item, saves it and increments `saved`; any exception while
handling one item increments `errors` and the loop continues.  Persistence
failures (`article.save()` throwing) are modelled by the `persistFails`
parameter; the database collection is the explicit `List Article` state and
an insert appends to it.
-/

/-- A normalized feed item as produced by `parseFeed`. -/
structure FeedItem where
  title : String
  description : Option String
  content : String
  link : String
  author : Option String
deriving DecidableEq, Repr

/-- The stored Article fields that ingestion reads or writes. -/
structure Article where
  title : String
  description : Option String
  content : String
  url : String
  originalUrl : String
  feedId : ℕ
  feedTitle : String
  category : String
  author : Option String
  isActive : Bool
deriving DecidableEq, Repr

/-- The `$or` duplicate query of `processFeedItems`: a stored article matches
an incoming item when its `url` or `originalUrl` equals the item link, or when
its title and owning feed coincide with the item title and the current feed. -/
def articleMatches (feedId : ℕ) (item : FeedItem) (a : Article) : Bool :=
  a.url == item.link || a.originalUrl == item.link
    || (a.title == item.title && a.feedId == feedId)

/-- The Deduplicator decision: `true` when the store already holds a matching
article (`findOne` returns a document), `false` when the item is new. -/
def dedupMatch (feedId : ℕ) (item : FeedItem) (store : List Article) : Bool :=
  (store.find? (articleMatches feedId item)).isSome

/-- Modelled from the spec: the ordered identity-key precedence the
specification states for the Deduplicator — (1) canonical URL equality,
(2) externalId + source-kind equality, (3) the composite of (title, author,
source-kind).  Normalized items and stored articles carry no externalId field
in the data model, so rule (2) can never produce a match; the source kind of a
stored article is determined by its owning feed, represented by `feedId`.
Stated only to be compared with the code definition `dedupMatch` above. -/
def specDedupDecision (feedId : ℕ) (item : FeedItem) (store : List Article) : Bool :=
  if store.any (fun a => a.url == item.link) then true
  else if store.any (fun _ => false) then true
  else store.any (fun a =>
    a.title == item.title && a.author == item.author && a.feedId == feedId)

/-- The new Article document built by `processFeedItems` for an unseen item:
both `url` and `originalUrl` are set to the item link. -/
def mkArticle (feedId : ℕ) (feedTitle category : String) (item : FeedItem) : Article :=
  { title := item.title
    description := item.description
    content := item.content
    url := item.link
    originalUrl := item.link
    feedId := feedId
    feedTitle := feedTitle
    category := category
    author := item.author
    isActive := true }

/-- The per-run counters returned by `processFeedItems`. -/
structure SyncCounts where
  saved : ℕ
  skipped : ℕ
  errors : ℕ
deriving DecidableEq, Repr

/-- The body of the `for` loop in `processFeedItems` for one item. -/
def processOneItem (persistFails : FeedItem → Bool) (feedId : ℕ)
    (feedTitle category : String) (acc : SyncCounts × List Article)
    (item : FeedItem) : SyncCounts × List Article :=
  match acc.2.find? (articleMatches feedId item) with
  | some _ => (⟨acc.1.saved, acc.1.skipped + 1, acc.1.errors⟩, acc.2)
  | none =>
    if persistFails item then
      (⟨acc.1.saved, acc.1.skipped, acc.1.errors + 1⟩, acc.2)
    else
      (⟨acc.1.saved + 1, acc.1.skipped, acc.1.errors⟩,
        acc.2 ++ [mkArticle feedId feedTitle category item])

/-- The whole `processFeedItems` loop: fold the per-item body over the parsed
feed items, starting from zero counters and the current store. -/
def processFeedItems (persistFails : FeedItem → Bool) (feedId : ℕ)
    (feedTitle category : String) (items : List FeedItem)
    (store : List Article) : SyncCounts × List Article :=
  items.foldl (processOneItem persistFails feedId feedTitle category)
    (⟨0, 0, 0⟩, store)

/-- Per-feed status recorded by `processAllFeeds`: `failed` when `parseFeed`
returned null, `success` otherwise (regardless of per-item error counts). -/
inductive FeedRunStatus where
  | success
  | failed
deriving DecidableEq, Repr

/-- One iteration of `processAllFeeds` for a single feed, given the outcome of
`parseFeed` (`none` models a parse failure). -/
def processFeed (persistFails : FeedItem → Bool) (feedId : ℕ)
    (feedTitle category : String) (parsed : Option (List FeedItem))
    (store : List Article) : FeedRunStatus × SyncCounts × List Article :=
  match parsed with
  | none => (.failed, ⟨0, 0, 0⟩, store)
  | some items =>
    let r := processFeedItems persistFails feedId feedTitle category items store
    (.success, r.1, r.2)

/-! ## Serialization helpers (`serializeDoc`)

`serializeValue` recursively converts a runtime value to a JSON-friendly one:
primitives pass through, `undefined` and functions are dropped, `Date` becomes
its ISO string (or null when invalid), ObjectId representations collapse to
their 24-hex string, arrays and plain objects recurse, and any other runtime
value falls through to null.  Values are modelled as trees, so the `WeakSet`
circular-reference guard (which tracks object identity and removes each object
after its subtree is done) can never fire and is not represented.  An ObjectId
class instance is `jOid h` with `h` the string its `toHexString` method
returns; a plain object is coerced exactly when its `$oid` field is a 24-hex
string, mirroring `coerceObjectIdString` (whose other probes all end in
`undefined` for plain objects).
-/

/-- Runtime values reaching the serializer. -/
inductive JsValue where
  | jNull
  | jUndef
  | jBool (b : Bool)
  | jNum (q : ℚ)
  | jStr (s : String)
  | jFunc
  | jDate (iso : Option String)
  | jOid (hex : String)
  | jArr (elems : List JsValue)
  | jObj (fields : List (String × JsValue))
  | jOther
deriving Repr

/-- The `/^[a-f\d]\x7b24\x7d$/i` test of `coerceObjectIdString`. -/
def isHex24 (s : String) : Bool :=
  s.length == 24 && s.data.all fun c =>
    c.isDigit || (('a' ≤ c) && (c ≤ 'f')) || (('A' ≤ c) && (c ≤ 'F'))

/-- Options of `serializeDoc`; the defaults are `stripUndefined = true` and
`omitKeys = ["__v", "$__"]`. -/
structure SerializeOptions where
  stripUndefined : Bool
  omitKeys : List String
deriving Repr

/-- Default serializer options. -/
def defaultSerializeOptions : SerializeOptions :=
  { stripUndefined := true, omitKeys := ["__v", "$__"] }

/-- ObjectId coercion for a plain object: defined when the `$oid` field is a
string passing the 24-hex test. -/
def oidOfFields (fields : List (String × JsValue)) : Option String :=
  match fields.find? (fun f => f.1 == "$oid") with
  | some (_, .jStr s) => if isHex24 s then some s else none
  | _ => none

mutual

/-- Core of `serializeValue`: `none` models the JS value `undefined`. -/
def serializeValue (o : SerializeOptions) : JsValue → Option JsValue
  | .jNull => some .jNull
  | .jUndef => none
  | .jBool b => some (.jBool b)
  | .jNum q => some (.jNum q)
  | .jStr s => some (.jStr s)
  | .jFunc => none
  | .jDate iso =>
    match iso with
    | none => some .jNull
    | some s => some (.jStr s)
  | .jOid hex => some (if isHex24 hex then .jStr hex else .jNull)
  | .jArr xs => some (.jArr (serializeArr o xs))
  | .jObj fs =>
    match oidOfFields fs with
    | some s => some (.jStr s)
    | none => some (.jObj (serializeFields o fs))
  | .jOther => some .jNull

/-- Array branch of `serializeValue`: serialize each element, dropping the
ones that serialize to `undefined`. -/
def serializeArr (o : SerializeOptions) : List JsValue → List JsValue
  | [] => []
  | x :: xs =>
    match serializeValue o x with
    | some w => w :: serializeArr o xs
    | none => serializeArr o xs

/-- Plain-object branch of `serializeValue`: omit the configured keys, and
keep a key whose value serialized to `undefined` only when `stripUndefined`
is off (the key then holds `undefined`). -/
def serializeFields (o : SerializeOptions) :
    List (String × JsValue) → List (String × JsValue)
  | [] => []
  | (k, v) :: fs =>
    if k ∈ o.omitKeys then serializeFields o fs
    else
      match serializeValue o v with
      | some w => (k, w) :: serializeFields o fs
      | none =>
        if o.stripUndefined then serializeFields o fs
        else (k, .jUndef) :: serializeFields o fs

end

/-- The exported `serializeDoc`: serialize and replace a top-level
`undefined` by null (the `?? null` fallback). -/
def serializeDoc (o : SerializeOptions) (v : JsValue) : JsValue :=
  (serializeValue o v).getD .jNull

/-! ## Theorems -/

/-- Claim C1, counterexample: on the concrete hub item with
downloads = 1,000,000, likes = 500, trending = true, the score computed by
`transformHuggingFaceModel` (which is 27) differs from the documented
logarithmic formula of the specification, because the code scales downloads
linearly against the 10,000,000 ceiling while the formula scales them
logarithmically. -/
theorem hubScore_not_logarithmic :
    ((huggingFaceScore 1000000 500 true : ℚ) : ℝ) ≠
      specHubExternalScore 1000000 500 true := by
  have h27 : (huggingFaceScore 1000000 500 true : ℚ) = 27 := by
    norm_num [huggingFaceScore, hfDownloadScore, hfLikeScore]
  rw [h27]
  unfold specHubExternalScore
  have hb : (1 : ℝ) < 10 := by norm_num
  have hN : (0 : ℝ) < Real.logb 10 (1000000 + 1) := by
    apply Real.logb_pos hb; norm_num
  have hD : (0 : ℝ) < Real.logb 10 (10000000 + 1) := by
    apply Real.logb_pos hb; norm_num
  have hpow : ((10000000 : ℝ) + 1) < ((1000000 : ℝ) + 1) ^ (10 : ℕ) := by
    have h2 : ((1000000 : ℝ) + 1) ^ (2 : ℕ) ≤ ((1000000 : ℝ) + 1) ^ (10 : ℕ) :=
      pow_le_pow_right (by norm_num) (by norm_num)
    nlinarith [h2]
  have hlog : Real.logb 10 (10000000 + 1) < 10 * Real.logb 10 (1000000 + 1) := by
    calc Real.logb 10 (10000000 + 1)
        < Real.logb 10 (((1000000 : ℝ) + 1) ^ (10 : ℕ)) :=
          Real.logb_lt_logb hb (by norm_num) hpow
      _ = 10 * Real.logb 10 (1000000 + 1) := by
          rw [Real.logb_pow]; norm_num
  have hratio : (1 : ℝ) / 10 < Real.logb 10 (1000000 + 1) / Real.logb 10 (10000000 + 1) := by
    rw [div_lt_div_iff (by norm_num) hD]
    linarith
  have hmin : (7 : ℝ) <
      min (Real.logb 10 ((1000000 : ℝ) + 1) / Real.logb 10 (10000000 + 1) * 70) 70 := by
    apply lt_min
    · nlinarith [hratio]
    · norm_num
  have hlikes : min ((500 : ℝ) / 1000 * 20) 20 = 10 := by norm_num
  intro hEq
  rw [hlikes, if_pos rfl] at hEq
  push_cast at hEq
  linarith [hmin, hEq.ge, hEq.le]

/-- Claim C1, amended: the hub score scales the dominant volume metric
linearly against the 10,000,000 reference ceiling and caps it at 70 (so the
concrete item with downloads = 1,000,000, likes = 500, trending = true scores
7 + 10 + 10 = 27); the download component is nonnegative, capped at its
ceiling 70, reaches the cap exactly from 10,000,000 downloads on, and is
monotone in the download count; the like component is capped at 20. -/
theorem hubScore_linear_capped :
    huggingFaceScore 1000000 500 true = 27 ∧
    (∀ d : ℚ, 0 ≤ d → 0 ≤ hfDownloadScore d ∧ hfDownloadScore d ≤ 70) ∧
    (∀ d : ℚ, 10000000 ≤ d → hfDownloadScore d = 70) ∧
    (∀ d₁ d₂ : ℚ, d₁ ≤ d₂ → hfDownloadScore d₁ ≤ hfDownloadScore d₂) ∧
    (∀ l : ℚ, hfLikeScore l ≤ 20) := by
  refine ⟨?_, ?_, ?_, ?_, ?_⟩
  · norm_num [huggingFaceScore, hfDownloadScore, hfLikeScore]
  · intro d hd
    constructor
    · apply le_min
      · positivity
      · norm_num
    · exact min_le_right _ _
  · intro d hd
    apply min_eq_right
    rw [div_mul_eq_mul_div, le_div_iff (by norm_num)]
    linarith
  · intro d₁ d₂ h
    unfold hfDownloadScore
    gcongr
  · intro l
    exact min_le_right _ _

/-- Witness for `hubScore_linear_capped` at concrete inputs. -/
theorem hubScore_linear_capped_witness :
    (0 : ℚ) ≤ 500000 ∧ (0 ≤ hfDownloadScore 500000 ∧ hfDownloadScore 500000 ≤ 70) :=
  ⟨by norm_num, hubScore_linear_capped.2.1 500000 (by norm_num)⟩

/-- Claim C4, counterexample: the GitHub repository pre-save pipeline rounds
the 85/15 blend to the nearest integer.  For the concrete repository with 0
stars, 0 forks, 90 open issues, no recorded push and no AI topics, the
trending score (the external score) is 1 and the stored user score is 0, so
the documented blend is 0.85, but the persisted final score is 1. -/
theorem githubFinalScore_not_exact_blend :
    githubFinalScoreOfRepo ⟨0, 0, 90, none, 0, 0⟩ 0 = 1 ∧
    calculateTrendingScore ⟨0, 0, 90, none, 0, 0⟩ = 1 ∧
    ((githubFinalScoreOfRepo ⟨0, 0, 90, none, 0, 0⟩ 0 : ℚ) ≠
      hybridFinalScore ((calculateTrendingScore ⟨0, 0, 90, none, 0, 0⟩ : ℤ) : ℚ) 0) := by
  have hts : calculateTrendingScore ⟨0, 0, 90, none, 0, 0⟩ = 1 := by
    unfold calculateTrendingScore
    norm_num
  refine ⟨?_, hts, ?_⟩
  · unfold githubFinalScoreOfRepo
    rw [hts]
    norm_num
  · unfold githubFinalScoreOfRepo
    rw [hts]
    norm_num [hybridFinalScore]

/-- Claim C4, amended: the AIModel pre-save hook persists exactly
`finalScore = huggingFaceScore * 0.85 + userScore * 0.15`, recomputing it on
every save (so recomputation is stable: saving again does not change it),
while the GitHub repository pipeline persists the blend rounded to the
nearest integer, which always stays within 1/2 of the exact blend. -/
theorem finalScore_blend_amended (m : AIModelState) (g u : ℚ) :
    (aiModelPreSave m).finalScore =
      (aiModelPreSave m).huggingFaceScore * 0.85 + (aiModelPreSave m).userScore * 0.15 ∧
    (aiModelPreSave (aiModelPreSave m)).finalScore = (aiModelPreSave m).finalScore ∧
    |(githubFinalScore g u : ℚ) - (g * 0.85 + u * 0.15)| ≤ 1 / 2 := by
  refine ⟨rfl, rfl, ?_⟩
  unfold githubFinalScore
  rw [abs_le]
  constructor
  · have := Int.sub_one_lt_floor (g * 0.85 + u * 0.15 + 1 / 2)
    linarith
  · have := Int.floor_le (g * 0.85 + u * 0.15 + 1 / 2)
    linarith

/-- Claim C5: for external and local scores in [0, 100] the blended final
score lies in [0, 100] and is monotone non-decreasing in each argument with
the other held fixed — both for the exact AIModel blend and for the rounded
GitHub repository blend. -/
theorem finalScore_bounds_monotone (e l e' l' g u g' u' : ℚ)
    (he0 : 0 ≤ e) (he1 : e ≤ 100) (hl0 : 0 ≤ l) (hl1 : l ≤ 100)
    (hee : e ≤ e') (hll : l ≤ l')
    (hg0 : 0 ≤ g) (hg1 : g ≤ 100) (hu0 : 0 ≤ u) (hu1 : u ≤ 100)
    (hgg : g ≤ g') (huu : u ≤ u') :
    (0 ≤ hybridFinalScore e l ∧ hybridFinalScore e l ≤ 100) ∧
    hybridFinalScore e l ≤ hybridFinalScore e' l ∧
    hybridFinalScore e l ≤ hybridFinalScore e l' ∧
    (0 ≤ githubFinalScore g u ∧ githubFinalScore g u ≤ 100) ∧
    githubFinalScore g u ≤ githubFinalScore g' u ∧
    githubFinalScore g u ≤ githubFinalScore g u' := by
  unfold hybridFinalScore githubFinalScore
  refine ⟨⟨by nlinarith, by nlinarith⟩, by nlinarith, by nlinarith, ⟨?_, ?_⟩, ?_, ?_⟩
  · rw [Int.le_floor]
    push_cast
    nlinarith
  · have hle : g * 0.85 + u * 0.15 + 1 / 2 ≤ 100 + 1 / 2 := by nlinarith
    have := Int.floor_mono hle
    have h100 : ⌊(100 : ℚ) + 1 / 2⌋ = 100 := by norm_num
    omega
  · apply Int.floor_mono; nlinarith
  · apply Int.floor_mono; nlinarith

/-- Witness for `finalScore_bounds_monotone` at concrete scores. -/
theorem finalScore_bounds_monotone_witness :
    ((0 : ℚ) ≤ 60 ∧ (60 : ℚ) ≤ 100 ∧ (0 : ℚ) ≤ 20 ∧ (20 : ℚ) ≤ 100 ∧
      (60 : ℚ) ≤ 80 ∧ (20 : ℚ) ≤ 30 ∧ (0 : ℚ) ≤ 41 ∧ (41 : ℚ) ≤ 100 ∧
      (0 : ℚ) ≤ 7 ∧ (7 : ℚ) ≤ 100 ∧ (41 : ℚ) ≤ 50 ∧ (7 : ℚ) ≤ 9) ∧
    ((0 ≤ hybridFinalScore 60 20 ∧ hybridFinalScore 60 20 ≤ 100) ∧
      hybridFinalScore 60 20 ≤ hybridFinalScore 80 20 ∧
      hybridFinalScore 60 20 ≤ hybridFinalScore 60 30 ∧
      (0 ≤ githubFinalScore 41 7 ∧ githubFinalScore 41 7 ≤ 100) ∧
      githubFinalScore 41 7 ≤ githubFinalScore 50 7 ∧
      githubFinalScore 41 7 ≤ githubFinalScore 41 9) :=
  ⟨by norm_num,
    finalScore_bounds_monotone 60 20 80 30 41 7 50 9 (by norm_num) (by norm_num)
      (by norm_num) (by norm_num) (by norm_num) (by norm_num) (by norm_num)
      (by norm_num) (by norm_num) (by norm_num) (by norm_num) (by norm_num)⟩

/-- Auxiliary: each failed sync adds one to the consecutive error counter. -/
theorem iterate_markSyncError_count (a : XAccountState) (e : String) :
    ∀ n : ℕ, ((fun s => markSyncError s e)^[n] a).syncErrorCount =
      a.syncErrorCount + n := by
  intro n
  induction n with
  | zero => simp
  | succ k ih =>
    rw [Function.iterate_succ_apply']
    show ((fun s => markSyncError s e)^[k] a).syncErrorCount + 1 = _
    omega

/-- Claim C7: five consecutive failed sync runs disable the account (for any
starting counter value, hence in particular from a healthy one), and a
successful run resets the consecutive error counter to 0, clears the last
error, and leaves a still-enabled account enabled. -/
theorem source_disabled_after_five_failures (a : XAccountState) (e : String)
    (now : ℕ) (henabled : a.isEnabled = true) :
    ((fun s => markSyncError s e)^[5] a).isEnabled = false ∧
    (markSyncSuccess a now).syncErrorCount = 0 ∧
    (markSyncSuccess a now).lastSyncError = none ∧
    (markSyncSuccess a now).isEnabled = true := by
  refine ⟨?_, rfl, rfl, henabled⟩
  have h4 : ((fun s => markSyncError s e)^[4] a).syncErrorCount =
      a.syncErrorCount + 4 := iterate_markSyncError_count a e 4
  have h5 : (5 : ℕ) = 4 + 1 := rfl
  rw [h5, Function.iterate_succ_apply']
  show (if 5 ≤ ((fun s => markSyncError s e)^[4] a).syncErrorCount + 1 then false
    else ((fun s => markSyncError s e)^[4] a).isEnabled) = false
  rw [if_pos (by omega)]

/-- Witness for `source_disabled_after_five_failures` on a fresh enabled
account. -/
theorem source_disabled_after_five_failures_witness :
    (XAccountState.mk true 0 none none).isEnabled = true ∧
    (((fun s => markSyncError s "timeout")^[5] ⟨true, 0, none, none⟩).isEnabled = false ∧
      (markSyncSuccess ⟨true, 0, none, none⟩ 7).syncErrorCount = 0 ∧
      (markSyncSuccess ⟨true, 0, none, none⟩ 7).lastSyncError = none ∧
      (markSyncSuccess ⟨true, 0, none, none⟩ 7).isEnabled = true) :=
  ⟨rfl, source_disabled_after_five_failures ⟨true, 0, none, none⟩ "timeout" 7 rfl⟩

/-- Claim C9: with a positive page size and any requested page number, the
pagination metadata has at least one page, clamps the current page into
[1, totalPages], and its navigation flags are `currentPage < totalPages` and
`currentPage > 1`. -/
theorem buildPagination_clamps (page : ℤ) (limit totalCount : ℕ)
    (hlimit : 0 < limit) :
    1 ≤ (buildPagination page limit totalCount).totalPages ∧
    1 ≤ (buildPagination page limit totalCount).currentPage ∧
    (buildPagination page limit totalCount).currentPage ≤
      (buildPagination page limit totalCount).totalPages ∧
    ((buildPagination page limit totalCount).hasNext = true ↔
      (buildPagination page limit totalCount).currentPage <
        (buildPagination page limit totalCount).totalPages) ∧
    ((buildPagination page limit totalCount).hasPrev = true ↔
      1 < (buildPagination page limit totalCount).currentPage) := by
  unfold buildPagination
  refine ⟨le_max_left _ _, ?_, ?_, ?_, ?_⟩
  · exact le_min (le_max_left _ _) (le_max_left _ _)
  · exact min_le_right _ _
  · simp
  · simp

/-- Witness for `buildPagination_clamps`: a requested page below 1 is clamped
to page 1 of 3 pages. -/
theorem buildPagination_clamps_witness :
    0 < 10 ∧
    (1 ≤ (buildPagination (-3) 10 25).totalPages ∧
      1 ≤ (buildPagination (-3) 10 25).currentPage ∧
      (buildPagination (-3) 10 25).currentPage ≤
        (buildPagination (-3) 10 25).totalPages ∧
      ((buildPagination (-3) 10 25).hasNext = true ↔
        (buildPagination (-3) 10 25).currentPage <
          (buildPagination (-3) 10 25).totalPages) ∧
      ((buildPagination (-3) 10 25).hasPrev = true ↔
        1 < (buildPagination (-3) 10 25).currentPage)) :=
  ⟨by norm_num, buildPagination_clamps (-3) 10 25 (by norm_num)⟩

/-- Auxiliary: processing one item never removes stored articles (the loop
only ever inserts). -/
theorem mem_processOneItem_store (pf : FeedItem → Bool) (fd : ℕ)
    (ft cat : String) (acc : SyncCounts × List Article) (it : FeedItem)
    (a : Article) (h : a ∈ acc.2) : a ∈ (processOneItem pf fd ft cat acc it).2 := by
  unfold processOneItem
  split
  · exact h
  · split
    · exact h
    · exact List.mem_append_left _ h

/-- Auxiliary: the whole loop never removes stored articles. -/
theorem mem_processFeedItems_store (pf : FeedItem → Bool) (fd : ℕ)
    (ft cat : String) (items : List FeedItem) (acc : SyncCounts × List Article)
    (a : Article) (h : a ∈ acc.2) :
    a ∈ (items.foldl (processOneItem pf fd ft cat) acc).2 := by
  induction items generalizing acc with
  | nil => exact h
  | cons x xs ih =>
    rw [List.foldl_cons]
    exact ih _ (mem_processOneItem_store pf fd ft cat acc x a h)

/-- Auxiliary: when persistence never fails, the store produced by the loop
holds a match for every processed item (either the stored article that caused
the skip, or the freshly inserted one, whose `url` is the item link). -/
theorem processFeedItems_matches_processed (fd : ℕ) (ft cat : String)
    (items : List FeedItem) (acc : SyncCounts × List Article) (it : FeedItem)
    (hmem : it ∈ items) :
    ∃ a ∈ (items.foldl (processOneItem (fun _ => false) fd ft cat) acc).2,
      articleMatches fd it a = true := by
  induction items generalizing acc with
  | nil => cases hmem
  | cons x xs ih =>
    rw [List.foldl_cons]
    rcases List.mem_cons.mp hmem with h | h
    · subst h
      have hstep : ∃ a ∈ (processOneItem (fun _ => false) fd ft cat acc it).2,
          articleMatches fd it a = true := by
        unfold processOneItem
        split
        next b hb => exact ⟨b, List.mem_of_find?_eq_some hb, List.find?_some hb⟩
        next hb =>
          simp only [Bool.false_eq_true, if_false]
          refine ⟨mkArticle fd ft cat it, List.mem_append_right _ ?_, ?_⟩
          · exact List.mem_singleton_self _
          · simp [articleMatches, mkArticle]
      obtain ⟨a, ha, hm⟩ := hstep
      exact ⟨a, mem_processFeedItems_store _ fd ft cat xs _ a ha, hm⟩
    · exact ih _ h

/-- Auxiliary: when every item of the batch already has a match in the
incoming store, the loop only counts skips and returns the store untouched. -/
theorem processFeedItems_all_matched (pf : FeedItem → Bool) (fd : ℕ)
    (ft cat : String) (items : List FeedItem) (acc : SyncCounts × List Article)
    (h : ∀ it ∈ items, (acc.2.find? (articleMatches fd it)).isSome) :
    items.foldl (processOneItem pf fd ft cat) acc
      = (⟨acc.1.saved, acc.1.skipped + items.length, acc.1.errors⟩, acc.2) := by
  induction items generalizing acc with
  | nil => simp
  | cons x xs ih =>
    have hx := h x (List.mem_cons_self x xs)
    obtain ⟨b, hb⟩ := Option.isSome_iff_exists.mp hx
    have hstep : processOneItem pf fd ft cat acc x
        = (⟨acc.1.saved, acc.1.skipped + 1, acc.1.errors⟩, acc.2) := by
      unfold processOneItem
      rw [hb]
    rw [List.foldl_cons, hstep,
      ih (⟨acc.1.saved, acc.1.skipped + 1, acc.1.errors⟩, acc.2)
        (fun it hit => h it (List.mem_cons_of_mem x hit))]
    simp [Nat.add_assoc, Nat.add_comm 1]

/-- Claim C6: ingestion is idempotent — running `processFeedItems` a second
time over the same (unchanged) feed items, starting from the store the first
run produced, saves nothing, skips every item, records no errors, and leaves
the store (hence every persisted field of every stored item) unchanged. -/
theorem processFeedItems_idempotent (fd : ℕ) (ft cat : String)
    (items : List FeedItem) (store : List Article) :
    processFeedItems (fun _ => false) fd ft cat items
        (processFeedItems (fun _ => false) fd ft cat items store).2
      = (⟨0, items.length, 0⟩,
          (processFeedItems (fun _ => false) fd ft cat items store).2) := by
  have hall : ∀ it ∈ items,
      (((processFeedItems (fun _ => false) fd ft cat items store).2).find?
        (articleMatches fd it)).isSome := by
    intro it hit
    refine List.find?_isSome.mpr ?_
    exact processFeedItems_matches_processed fd ft cat items (⟨0, 0, 0⟩, store) it hit
  have key := processFeedItems_all_matched (fun _ => false) fd ft cat items
    (⟨0, 0, 0⟩, (processFeedItems (fun _ => false) fd ft cat items store).2) hall
  simpa [processFeedItems] using key

/-- Claim C2, counterexample: in the second-sync scenario (U1 byte-identical,
U2 with a changed title, U4 new) the loop skips both U1 and U2 — the changed
title of U2 only makes the match fire on the URL key, and the stored record
keeps its old title — so the run ends with saved = 1 and skipped = 2, not
skipped = 1 with one update; the store is only extended by the new article
for U4. -/
theorem ingestion_never_updates_counterexample :
    processFeedItems (fun _ => false) 0 "F" "ai"
        [⟨"T1", none, "c", "u1", none⟩, ⟨"New", none, "c", "u2", none⟩,
          ⟨"T4", none, "c", "u4", none⟩]
        [⟨"T1", none, "c", "u1", "u1", 0, "F", "ai", none, true⟩,
          ⟨"Old", none, "c", "u2", "u2", 0, "F", "ai", none, true⟩,
          ⟨"T3", none, "c", "u3", "u3", 0, "F", "ai", none, true⟩]
      = (⟨1, 2, 0⟩,
          [⟨"T1", none, "c", "u1", "u1", 0, "F", "ai", none, true⟩,
            ⟨"Old", none, "c", "u2", "u2", 0, "F", "ai", none, true⟩,
            ⟨"T3", none, "c", "u3", "u3", 0, "F", "ai", none, true⟩,
            ⟨"T4", none, "c", "u4", "u4", 0, "F", "ai", none, true⟩]) ∧
    (processFeedItems (fun _ => false) 0 "F" "ai"
        [⟨"T1", none, "c", "u1", none⟩, ⟨"New", none, "c", "u2", none⟩,
          ⟨"T4", none, "c", "u4", none⟩]
        [⟨"T1", none, "c", "u1", "u1", 0, "F", "ai", none, true⟩,
          ⟨"Old", none, "c", "u2", "u2", 0, "F", "ai", none, true⟩,
          ⟨"T3", none, "c", "u3", "u3", 0, "F", "ai", none, true⟩]).1.skipped ≠ 1 := by
  constructor
  · decide
  · decide

/-- Claim C2, amended: an incoming item the Deduplicator resolves to an
existing stored record is always counted as skipped with no write at all —
the loop has no update path and no updated counter, even when normalized
fields differ — and in the second-sync scenario the run therefore ends with
saved = 1 (U4), skipped = 2 (U1 and U2), and the stored record of U2
unchanged. -/
theorem ingestion_match_always_skips (pf : FeedItem → Bool) (fd : ℕ)
    (ft cat : String) (c : SyncCounts) (st : List Article) (it : FeedItem)
    (h : (st.find? (articleMatches fd it)).isSome) :
    processOneItem pf fd ft cat (c, st) it = (⟨c.saved, c.skipped + 1, c.errors⟩, st) ∧
    (processFeedItems (fun _ => false) 0 "F" "ai"
        [⟨"T1", none, "c", "u1", none⟩, ⟨"New", none, "c", "u2", none⟩,
          ⟨"T4", none, "c", "u4", none⟩]
        [⟨"T1", none, "c", "u1", "u1", 0, "F", "ai", none, true⟩,
          ⟨"Old", none, "c", "u2", "u2", 0, "F", "ai", none, true⟩,
          ⟨"T3", none, "c", "u3", "u3", 0, "F", "ai", none, true⟩]).1
      = ⟨1, 2, 0⟩ := by
  constructor
  · obtain ⟨b, hb⟩ := Option.isSome_iff_exists.mp h
    unfold processOneItem
    rw [show (c, st).2 = st from rfl, hb]
  · decide

/-- Witness for `ingestion_match_always_skips`: a store already holding the
incoming URL. -/
theorem ingestion_match_always_skips_witness :
    (([⟨"T1", none, "c", "u1", "u1", 0, "F", "ai", none, true⟩] :
        List Article).find?
      (articleMatches 0 ⟨"T1", none, "c", "u1", none⟩)).isSome = true ∧
    (processOneItem (fun _ => false) 0 "F" "ai"
        (⟨0, 0, 0⟩, [⟨"T1", none, "c", "u1", "u1", 0, "F", "ai", none, true⟩])
        ⟨"T1", none, "c", "u1", none⟩
      = (⟨0, 0 + 1, 0⟩, [⟨"T1", none, "c", "u1", "u1", 0, "F", "ai", none, true⟩]) ∧
      (processFeedItems (fun _ => false) 0 "F" "ai"
          [⟨"T1", none, "c", "u1", none⟩, ⟨"New", none, "c", "u2", none⟩,
            ⟨"T4", none, "c", "u4", none⟩]
          [⟨"T1", none, "c", "u1", "u1", 0, "F", "ai", none, true⟩,
            ⟨"Old", none, "c", "u2", "u2", 0, "F", "ai", none, true⟩,
            ⟨"T3", none, "c", "u3", "u3", 0, "F", "ai", none, true⟩]).1
        = ⟨1, 2, 0⟩) :=
  ⟨by decide,
    ingestion_match_always_skips (fun _ => false) 0 "F" "ai" ⟨0, 0, 0⟩
      [⟨"T1", none, "c", "u1", "u1", 0, "F", "ai", none, true⟩]
      ⟨"T1", none, "c", "u1", none⟩ (by decide)⟩

/-- Claim C3, counterexample: the code matches on (title, feedId) regardless
of the author, while the precedence the specification states only matches
rule (3) when title, author and source kind all coincide.  For an incoming
item whose title equals a stored article of the same feed but whose author
differs (and whose link matches no stored URL), the code reports a duplicate
while the specified precedence reports a new item. -/
theorem dedup_precedence_counterexample :
    dedupMatch 0 ⟨"T", none, "c", "u-new", some "Y"⟩
        [⟨"T", none, "c", "u-a", "u-a", 0, "F", "ai", some "X", true⟩] = true ∧
    specDedupDecision 0 ⟨"T", none, "c", "u-new", some "Y"⟩
        [⟨"T", none, "c", "u-a", "u-a", 0, "F", "ai", some "X", true⟩] = false := by
  constructor
  · decide
  · decide

/-- Claim C3, amended: the match/new decision is a single unordered
disjunction (`$or`) over stored records of url equality, originalUrl equality
and the (title, feedId) composite — no externalId and no author key take
part — so the decision is equivalent to the existence of one matching stored
record and is invariant under reordering the store. -/
theorem dedupMatch_unordered_disjunction (fd : ℕ) (it : FeedItem)
    (s₁ s₂ : List Article) (h : s₁.Perm s₂) :
    dedupMatch fd it s₁ = dedupMatch fd it s₂ ∧
    (dedupMatch fd it s₁ = true ↔
      ∃ a ∈ s₁, (a.url == it.link || a.originalUrl == it.link
        || (a.title == it.title && a.feedId == fd)) = true) := by
  have h1 : dedupMatch fd it s₁ = true ↔
      ∃ a ∈ s₁, articleMatches fd it a = true := by
    simp [dedupMatch, List.find?_isSome]
  have h2 : dedupMatch fd it s₂ = true ↔
      ∃ a ∈ s₂, articleMatches fd it a = true := by
    simp [dedupMatch, List.find?_isSome]
  have hmm : (∃ a ∈ s₁, articleMatches fd it a = true) ↔
      ∃ a ∈ s₂, articleMatches fd it a = true := by
    constructor
    · rintro ⟨a, ha, hma⟩; exact ⟨a, h.mem_iff.mp ha, hma⟩
    · rintro ⟨a, ha, hma⟩; exact ⟨a, h.mem_iff.mpr ha, hma⟩
  refine ⟨?_, h1⟩
  have hbe : dedupMatch fd it s₁ = true ↔ dedupMatch fd it s₂ = true :=
    h1.trans (hmm.trans h2.symm)
  cases hb1 : dedupMatch fd it s₁ <;> cases hb2 : dedupMatch fd it s₂ <;>
    simp_all

/-- Witness for `dedupMatch_unordered_disjunction` on a two-element store and
its transposition. -/
theorem dedupMatch_unordered_disjunction_witness :
    ([⟨"A", none, "c", "ua", "ua", 0, "F", "ai", none, true⟩,
        ⟨"B", none, "c", "ub", "ub", 0, "F", "ai", none, true⟩] : List Article).Perm
      [⟨"B", none, "c", "ub", "ub", 0, "F", "ai", none, true⟩,
        ⟨"A", none, "c", "ua", "ua", 0, "F", "ai", none, true⟩] ∧
    (dedupMatch 0 ⟨"B", none, "c", "ub", none⟩
        [⟨"A", none, "c", "ua", "ua", 0, "F", "ai", none, true⟩,
          ⟨"B", none, "c", "ub", "ub", 0, "F", "ai", none, true⟩]
      = dedupMatch 0 ⟨"B", none, "c", "ub", none⟩
        [⟨"B", none, "c", "ub", "ub", 0, "F", "ai", none, true⟩,
          ⟨"A", none, "c", "ua", "ua", 0, "F", "ai", none, true⟩] ∧
      (dedupMatch 0 ⟨"B", none, "c", "ub", none⟩
          [⟨"A", none, "c", "ua", "ua", 0, "F", "ai", none, true⟩,
            ⟨"B", none, "c", "ub", "ub", 0, "F", "ai", none, true⟩] = true ↔
        ∃ a ∈ ([⟨"A", none, "c", "ua", "ua", 0, "F", "ai", none, true⟩,
            ⟨"B", none, "c", "ub", "ub", 0, "F", "ai", none, true⟩] : List Article),
          (a.url == "ub" || a.originalUrl == "ub"
            || (a.title == "B" && a.feedId == 0)) = true)) :=
  ⟨List.Perm.swap _ _ _,
    dedupMatch_unordered_disjunction 0 ⟨"B", none, "c", "ub", none⟩ _ _
      (List.Perm.swap _ _ _)⟩

/-- Auxiliary: every processed item bumps exactly one of the three counters
by one, so the counters of a run add up to the counters the fold started from
plus the batch length. -/
theorem processFeedItems_counts_total (pf : FeedItem → Bool) (fd : ℕ)
    (ft cat : String) (items : List FeedItem) (acc : SyncCounts × List Article) :
    (items.foldl (processOneItem pf fd ft cat) acc).1.saved
      + (items.foldl (processOneItem pf fd ft cat) acc).1.skipped
      + (items.foldl (processOneItem pf fd ft cat) acc).1.errors
      = acc.1.saved + acc.1.skipped + acc.1.errors + items.length := by
  induction items generalizing acc with
  | nil => simp
  | cons x xs ih =>
    rw [List.foldl_cons, ih]
    have hstep : (processOneItem pf fd ft cat acc x).1.saved
        + (processOneItem pf fd ft cat acc x).1.skipped
        + (processOneItem pf fd ft cat acc x).1.errors
        = acc.1.saved + acc.1.skipped + acc.1.errors + 1 := by
      unfold processOneItem
      split
      · simp; omega
      · split
        · simp; omega
        · simp; omega
    rw [hstep]
    simp [Nat.add_assoc, Nat.add_comm 1]

/-- Claim C8: every item of a batch is processed and counted exactly once
(saved + skipped + errors equals the batch length, whatever items fail to
persist), and in the concrete 10-item batch where only the
persistence fails, the run finishes with 9 saved, 0 skipped, 1 errored, 9
articles inserted, and the run-level status is still success (a run is marked
failed only when the feed itself could not be parsed). -/
theorem failure_isolation_per_item :
    (∀ (pf : FeedItem → Bool) (fd : ℕ) (ft cat : String)
      (items : List FeedItem) (store : List Article),
      (processFeedItems pf fd ft cat items store).1.saved
        + (processFeedItems pf fd ft cat items store).1.skipped
        + (processFeedItems pf fd ft cat items store).1.errors = items.length) ∧
    (processFeed (fun it => it.link == "u3") 0 "F" "ai"
        (some ((List.range 10).map fun n =>
          (⟨"t" ++ toString n, none, "", "u" ++ toString n, none⟩ : FeedItem))) []).1
      = .success ∧
    (processFeed (fun it => it.link == "u3") 0 "F" "ai"
        (some ((List.range 10).map fun n =>
          (⟨"t" ++ toString n, none, "", "u" ++ toString n, none⟩ : FeedItem))) []).2.1
      = ⟨9, 0, 1⟩ ∧
    (processFeed (fun it => it.link == "u3") 0 "F" "ai"
        (some ((List.range 10).map fun n =>
          (⟨"t" ++ toString n, none, "", "u" ++ toString n, none⟩ : FeedItem))) []).2.2.length
      = 9 := by
  refine ⟨?_, ?_, ?_, ?_⟩
  · intro pf fd ft cat items store
    have := processFeedItems_counts_total pf fd ft cat items (⟨0, 0, 0⟩, store)
    simpa [processFeedItems] using this
  · decide
  · decide
  · decide

/-- Claim C10 (code bug evidence): `serializeDoc` is not idempotent.  On the
plain object whose `$oid` key holds another `$oid`-shaped object, the first
serialization turns the inner object into its 24-hex string, producing an
object that now matches the ObjectId coercion shape, so the second
serialization collapses the whole object to a bare string — contradicting the
modules own documented design note that re-serializing an already serialized
object returns an equivalent object. -/
theorem serializeDoc_not_idempotent :
    serializeDoc defaultSerializeOptions
        (.jObj [("$oid", .jObj [("$oid", .jStr "aaaaaaaaaaaaaaaaaaaaaaaa")])])
      = .jObj [("$oid", .jStr "aaaaaaaaaaaaaaaaaaaaaaaa")] ∧
    serializeDoc defaultSerializeOptions
        (serializeDoc defaultSerializeOptions
          (.jObj [("$oid", .jObj [("$oid", .jStr "aaaaaaaaaaaaaaaaaaaaaaaa")])]))
      = .jStr "aaaaaaaaaaaaaaaaaaaaaaaa" ∧
    serializeDoc defaultSerializeOptions
        (serializeDoc defaultSerializeOptions
          (.jObj [("$oid", .jObj [("$oid", .jStr "aaaaaaaaaaaaaaaaaaaaaaaa")])]))
      ≠ serializeDoc defaultSerializeOptions
        (.jObj [("$oid", .jObj [("$oid", .jStr "aaaaaaaaaaaaaaaaaaaaaaaa")])]) := by
  have h1 : serializeDoc defaultSerializeOptions
      (.jObj [("$oid", .jObj [("$oid", .jStr "aaaaaaaaaaaaaaaaaaaaaaaa")])])
      = .jObj [("$oid", .jStr "aaaaaaaaaaaaaaaaaaaaaaaa")] := by rfl
  have h2 : serializeDoc defaultSerializeOptions
      (.jObj [("$oid", .jStr "aaaaaaaaaaaaaaaaaaaaaaaa")])
      = .jStr "aaaaaaaaaaaaaaaaaaaaaaaa" := by rfl
  refine ⟨h1, ?_, ?_⟩
  · rw [h1, h2]
  · rw [h1, h2]
    intro h
    exact JsValue.noConfusion h

end AggroNation
